import Mathlib

/-!
Shallow embedding of the go-pagination library (github.com/scarxity/go-pagination)
and proofs about its pagination, binding, include-validation and search-clause
behaviour.

Conventions of the embedding:
* Go structs become Lean structures with the same field names.
* Go `int`/`int64` are modelled as `Int` (the claims under proof never exercise
  machine-width overflow).
* `math.Ceil(float64(a)/float64(b))` for `b > 0` is modelled as the exact
  ceiling `ceilDiv a b` of the rational `a / b` (idealized real arithmetic).
* Mutation of a request-scoped struct is modelled by explicit state passing:
  each Go method that mutates its receiver becomes a function returning the
  updated value.
* `ctx.Query(name)` returns the raw query string value, `""` when absent, so a
  request context is a record of raw strings.
-/

namespace GoPagination

/-- Embeds Go struct `PaginationRequest` (pagination.go). -/
structure PaginationRequest where
  Page : Int
  PerPage : Int
  Search : String
  -- Go field `Sort` (`Sort` is a Lean keyword)
  SortField : String
  Order : String
  IsDisabled : Bool
  deriving Repr, DecidableEq

/-- Embeds Go struct `PaginationResponse` (pagination.go). -/
structure PaginationResponse where
  Page : Int
  PerPage : Int
  MaxPage : Int
  Total : Int
  IsDisabled : Bool
  deriving Repr, DecidableEq

/-- Embeds Go struct `PaginatedResponse` (pagination.go); `Data` is
`interface{}` in Go, modelled as an optional row list (`none` = `nil`). -/
structure PaginatedResponse (α : Type) where
  Code : Int
  Status : String
  Message : String
  Data : Option (List α)
  Pagination : PaginationResponse
  deriving Repr, DecidableEq

/-- Embeds `(*PaginationRequest).Validate` (pagination.go lines 50-66): clamps
`Page` and `PerPage`, defaults `Order`. -/
def PaginationRequest.Validate (p : PaginationRequest) : PaginationRequest :=
  let p := if p.Page ≤ 0 then { p with Page := 1 } else p
  let p := if p.PerPage ≤ 0 then { p with PerPage := 10 } else p
  let p := if p.Order = "" then { p with Order := "asc" } else p
  if p.Order ≠ "asc" ∧ p.Order ≠ "desc" then { p with Order := "asc" } else p

/-- Exact ceiling of `a / b` for `b > 0`; model of
`int64(math.Ceil(float64(a) / float64(b)))` in `CalculatePagination`. -/
def ceilDiv (a b : Int) : Int := -((-a) / b)

/-- Embeds `CalculatePagination` (pagination.go lines 111-136). -/
def CalculatePagination (pagination : PaginationRequest) (totalCount : Int) :
    PaginationResponse :=
  if pagination.IsDisabled then
    { Page := 1, PerPage := totalCount, MaxPage := 1, Total := totalCount,
      IsDisabled := true }
  else
    let maxPage := ceilDiv totalCount pagination.PerPage
    let maxPage := if maxPage = 0 then 1 else maxPage
    { Page := pagination.Page, PerPage := pagination.PerPage,
      MaxPage := maxPage, Total := totalCount, IsDisabled := false }

/-- Embeds `NewPaginatedResponse` (pagination.go lines 138-151). -/
def NewPaginatedResponse {α : Type} (code : Int) (message : String)
    (data : Option (List α)) (pagination : PaginationResponse) :
    PaginatedResponse α :=
  let status := if code ≥ 400 then "error" else "success"
  { Code := code, Status := status, Message := message, Data := data,
    Pagination := pagination }

/-- Zero value `PaginationResponse{}` used by the Go error paths. -/
def zeroPaginationResponse : PaginationResponse :=
  { Page := 0, PerPage := 0, MaxPage := 0, Total := 0, IsDisabled := false }

/-- Numeric value of a decimal digit string, most significant digit first. -/
def digitsVal (cs : List Char) : Nat :=
  cs.foldl (fun acc c => 10 * acc + (c.toNat - Char.toNat '0')) 0

/-- Embeds Go `strconv.Atoi` (base-10 parse into a 64-bit `int`): optional
sign, then one or more ASCII digits, range-checked; empty input, stray
characters or overflow give an error, modelled as `none`. -/
def goAtoi (s : String) : Option Int :=
  let signAndDigits : Int × List Char :=
    match s.data with
    | '+' :: rest => (1, rest)
    | '-' :: rest => (-1, rest)
    | rest => (1, rest)
  let sign := signAndDigits.1
  let digits := signAndDigits.2
  if digits = [] ∨ ¬ digits.all Char.isDigit then none
  else
    let v : Int := sign * (digitsVal digits : Int)
    if v < -9223372036854775808 ∨ 9223372036854775808 ≤ v then none else some v

/-- Raw query-string values a gin context hands to `BindPagination`;
`ctx.Query(name)` yields `""` when the parameter is absent. -/
structure QueryContext where
  page : String
  per_page : String
  search : String
  sort : String
  order : String
  is_disabled : String
  deriving Repr, DecidableEq

/-- Embeds the `is_disabled` switch of `BindPagination` (pagination.go lines
98-105): lower-cased value against the accepted truthy spellings. -/
def parseBoolish (s : String) : Bool :=
  let l := s.toLower
  l = "1" || l = "true" || l = "yes" || l = "y" || l = "on"

/-- Embeds `BindPagination` (pagination.go lines 68-109): starts from the
defaults, overrides each field from the query string when present and
parseable (and in range), then runs `Validate`. -/
def BindPagination (ctx : QueryContext) : PaginationRequest :=
  let pagination : PaginationRequest :=
    { Page := 1, PerPage := 10, Search := "", SortField := "", Order := "asc",
      IsDisabled := false }
  let pagination :=
    if ctx.page ≠ "" then
      match goAtoi ctx.page with
      | some page => if page > 0 then { pagination with Page := page } else pagination
      | none => pagination
    else pagination
  let pagination :=
    if ctx.per_page ≠ "" then
      match goAtoi ctx.per_page with
      | some perPage =>
          if perPage > 0 ∧ perPage ≤ 100 then { pagination with PerPage := perPage }
          else pagination
      | none => pagination
    else pagination
  let pagination := { pagination with Search := ctx.search }
  let pagination := { pagination with SortField := ctx.sort }
  let pagination :=
    if ctx.order = "desc" ∨ ctx.order = "asc" then { pagination with Order := ctx.order }
    else pagination
  let pagination :=
    if ctx.is_disabled ≠ "" then
      { pagination with IsDisabled := parseBoolish ctx.is_disabled }
    else pagination
  pagination.Validate

/-- Character class of the include regex `[a-zA-Z0-9_.]` (README,
`isValidInclude`). -/
def isIncludeChar (c : Char) : Bool :=
  (Char.ofNat 97 ≤ c && c ≤ Char.ofNat 122) ||
  (Char.ofNat 65 ≤ c && c ≤ Char.ofNat 90) ||
  (Char.ofNat 48 ≤ c && c ≤ Char.ofNat 57) ||
  c = Char.ofNat 95 || c = Char.ofNat 46

/-- Embeds `isValidInclude` (README security section): a full match of the
anchored regex `^[a-zA-Z0-9_.]+$`, so at least one character and every
character in the class. -/
def isValidInclude (s : String) : Bool :=
  s.data ≠ [] && s.data.all isIncludeChar

/-- Embeds `SecureUserFilter.Validate` (README security section): walks the
requested includes in order, keeping a name iff the allow-list maps it to
`true` and it also passes `isValidInclude`. -/
def SecureUserFilterValidate (allowedIncludes : String → Bool) :
    List String → List String
  | [] => []
  | inc :: rest =>
    if allowedIncludes inc then
      if isValidInclude inc then inc :: SecureUserFilterValidate allowedIncludes rest
      else SecureUserFilterValidate allowedIncludes rest
    else SecureUserFilterValidate allowedIncludes rest

/-- Embeds the `Validate` loop shared by `ProvinceFilter` and `AthleteFilter`
(examples): keep a requested include iff `allowedIncludes[include]`; a Go map
lookup of a missing key yields `false`. -/
def allowListValidate (allowedIncludes : String → Bool) :
    List String → List String
  | [] => []
  | inc :: rest =>
    if allowedIncludes inc then inc :: allowListValidate allowedIncludes rest
    else allowListValidate allowedIncludes rest

/-- Allow-list `GetAllowedIncludes` of `ProvinceFilter`: `{"Athletes": true}`. -/
def ProvinceFilterAllowedIncludes : String → Bool := fun s => s = "Athletes"

/-- Embeds `ProvinceFilter.Validate`. -/
def ProvinceFilterValidate : List String → List String :=
  allowListValidate ProvinceFilterAllowedIncludes

/-- Allow-list `GetAllowedIncludes` of `AthleteFilter`:
`{"Province": true, "Sport": true, "PlayersEvents": true}`. -/
def AthleteFilterAllowedIncludes : String → Bool :=
  fun s => s = "Province" || s = "Sport" || s = "PlayersEvents"

/-- Embeds `AthleteFilter.Validate`. -/
def AthleteFilterValidate : List String → List String :=
  allowListValidate AthleteFilterAllowedIncludes

/-- Modelled from the spec: the `DatabaseDialect` constants (`MySQL`,
`PostgreSQL`, `SQLite`, `SQLServer`, spec §4.3) are declared in a repository
file not under src/; helpers.go and the tests only use them. -/
inductive DatabaseDialect where
  | MySQL
  | PostgreSQL
  | SQLite
  | SQLServer
  deriving Repr, DecidableEq

/-- One parameterized WHERE clause: its SQL text and its bound arguments. -/
structure WhereClause where
  cond : String
  args : List String
  deriving Repr, DecidableEq

/-- A query context, reduced to the ordered list of WHERE clauses added so
far — `Where` is the only gorm operation `CreateSearchableFilter` uses. -/
structure Query where
  wheres : List WhereClause
  deriving Repr, DecidableEq

/-- Models gorm's `query.Where(cond, args...)`: appends one clause. -/
def Query.Where (q : Query) (cond : String) (args : List String) : Query :=
  { wheres := q.wheres ++ [{ cond := cond, args := args }] }

/-- Embeds `CreateSearchableFilter` (helpers.go lines 52-79). -/
def CreateSearchableFilter (searchFields : List String)
    (dialect : DatabaseDialect) : Query → String → Query :=
  fun query searchTerm =>
    if searchFields.length = 0 ∨ searchTerm = "" then query
    else
      let searchPattern := "%" ++ searchTerm ++ "%"
      let operator := if dialect = DatabaseDialect.PostgreSQL then "ILIKE" else "LIKE"
      match searchFields with
      | [] => query
      | [field] => query.Where (field ++ " " ++ operator ++ " ?") [searchPattern]
      | fields =>
          let conditions := fields.map (fun field => field ++ " " ++ operator ++ " ?")
          let args := fields.map (fun _ => searchPattern)
          let whereClause := "(" ++ String.intercalate " OR " conditions ++ ")"
          query.Where whereClause args

/-- Operator the spec says each dialect selects (§4.3): `ILIKE` on
PostgreSQL, `LIKE` elsewhere. Comparison-side definition for C6. -/
def searchOperator (dialect : DatabaseDialect) : String :=
  if dialect = DatabaseDialect.PostgreSQL then "ILIKE" else "LIKE"

/-- Clause text the search builder produces, as a function of the fields and
the operator only — independent of the search term. Comparison-side
definition for C6. -/
def searchClauseText (searchFields : List String) (op : String) : String :=
  match searchFields with
  | [] => ""
  | [field] => field ++ " " ++ op ++ " ?"
  | fields =>
      "(" ++ String.intercalate " OR "
        (fields.map (fun field => field ++ " " ++ op ++ " ?")) ++ ")"

/-- Modelled from the spec: `PaginatedQuery` (the count-then-fetch executor,
spec §4.6) is declared in a repository file not under src/; it issues Count,
then Fetch, aborts on the first store error, and returns rows plus total.
The store's two answers are passed in as `countResult` and `fetchResult`. -/
def PaginatedQuery {α : Type} (countResult : Except String Int)
    (fetchResult : Except String (List α)) : Except String (List α × Int) :=
  match countResult with
  | .error e => .error e
  | .ok total =>
    match fetchResult with
    | .error e => .error e
    | .ok rows => .ok (rows, total)

/-- Embeds `PaginateWithCustomFilter` (helpers.go lines 11-33). `bindResult`
is the outcome of the external gin call `ctx.ShouldBindQuery(filter)`;
`pagination` is `filter.GetPagination()` after binding. Returns the Go
triple `(data, response, err)` with `err` as an `Option`. -/
def PaginateWithCustomFilter {α : Type} (bindResult : Except String Unit)
    (countResult : Except String Int) (fetchResult : Except String (List α))
    (pagination : PaginationRequest) :
    List α × PaginationResponse × Option String :=
  match bindResult with
  | .error e => ([], zeroPaginationResponse, some e)
  | .ok _ =>
    match PaginatedQuery countResult fetchResult with
    | .error e => ([], zeroPaginationResponse, some e)
    | .ok (data, total) => (data, CalculatePagination pagination total, none)

/-- Embeds `PaginatedAPIResponseWithCustomFilter` (helpers.go lines 36-49). -/
def PaginatedAPIResponseWithCustomFilter {α : Type}
    (bindResult : Except String Unit) (countResult : Except String Int)
    (fetchResult : Except String (List α)) (pagination : PaginationRequest)
    (message : String) : PaginatedResponse α :=
  match PaginateWithCustomFilter bindResult countResult fetchResult pagination with
  | (_, _, some e) =>
      NewPaginatedResponse 500 ("Internal Server Error: " ++ e) none
        zeroPaginationResponse
  | (data, paginationResponse, none) =>
      NewPaginatedResponse 200 message (some data) paginationResponse

/-- Embeds `PaginatedQueryWithQueryLayer` (helpers.go lines 203-214): runs
the filter's `Validate` on its includes, then the query layer on the
sanitized list. -/
def PaginatedQueryWithQueryLayer {α : Type}
    (validate : List String → List String) (includes : List String)
    (queryFunc : List String → Except String (List α × Int)) :
    Except String (List α × Int) :=
  queryFunc (validate includes)

/-- Embeds `PaginatedAPIResponseWithQueryLayer` (helpers.go lines 217-241).
`bindResult` is the outcome of `ctx.ShouldBindQuery(filter)`; a failure is
answered with a code-400 envelope. -/
def PaginatedAPIResponseWithQueryLayer {α : Type}
    (bindResult : Except String Unit) (validate : List String → List String)
    (includes : List String)
    (queryFunc : List String → Except String (List α × Int))
    (pagination : PaginationRequest) (message : String) : PaginatedResponse α :=
  match bindResult with
  | .error e =>
      NewPaginatedResponse 400 ("Invalid query parameters: " ++ e) none
        zeroPaginationResponse
  | .ok _ =>
    match PaginatedQueryWithQueryLayer validate includes queryFunc with
    | .error e =>
        NewPaginatedResponse 500 ("Internal Server Error: " ++ e) none
          zeroPaginationResponse
    | .ok (data, total) =>
        NewPaginatedResponse 200 message (some data)
          (CalculatePagination pagination total)

/-- Request literal with the given paging fields and empty string fields,
used for concrete instances in the theorems below. -/
def mkRequest (page perPage : Int) (isDisabled : Bool) : PaginationRequest :=
  { Page := page, PerPage := perPage, Search := "", SortField := "", Order := "asc", IsDisabled := isDisabled }

/-- Response the query-layer API helper gives when the external
`ctx.ShouldBindQuery(filter)` call fails with message "invalid syntax"
(e.g. a non-numeric value bound into a typed filter field): the concrete
input showing a malformed request parameter that is rejected rather than
degraded. -/
def bindFailureResponse : PaginatedResponse Unit :=
  PaginatedAPIResponseWithQueryLayer (Except.error "invalid syntax")
    (SecureUserFilterValidate (fun _ => true)) []
    (fun _ => Except.ok ([], 0)) (mkRequest 1 10 false)
    "Users retrieved successfully"

/-- Modelled from the spec: `isValidSortField` (spec §4.2) is declared in a
repository file not under src/ (only the tests call it); it accepts exactly
the strings matching the anchored regex `^[a-zA-Z_][a-zA-Z0-9_.]*$` — a
letter or underscore, then letters, digits, underscores or dots (the tail
class coincides with `isIncludeChar`). -/
def isValidSortField (s : String) : Bool :=
  match s.data with
  | [] => false
  | c :: rest =>
    ((Char.ofNat 97 ≤ c && c ≤ Char.ofNat 122) ||
     (Char.ofNat 65 ≤ c && c ≤ Char.ofNat 90) ||
     c = Char.ofNat 95) && rest.all isIncludeChar

/-- Modelled from the spec: the executor's sort resolution (spec §4.6) lives
in the repository file missing from src/: if the request's `sort` passes
`isValidSortField`, the order-by clause is `"<field> <order>"`; otherwise
the strategy's developer-authored `GetDefaultSort()` is used verbatim — an
invalid sort name is dropped silently, never surfaced as an error. -/
def resolveSort (sortField order defaultSort : String) : String :=
  if isValidSortField sortField then sortField ++ " " ++ order else defaultSort

end GoPagination

namespace GoPagination

lemma goAtoi_empty : goAtoi "" = none := by decide

/-- Closed form of `Validate`. -/
lemma Validate_eq (p : PaginationRequest) :
    p.Validate =
      { Page := if p.Page ≤ 0 then 1 else p.Page,
        PerPage := if p.PerPage ≤ 0 then 10 else p.PerPage,
        Search := p.Search, SortField := p.SortField,
        Order := if p.Order = "asc" ∨ p.Order = "desc" then p.Order else "asc",
        IsDisabled := p.IsDisabled } := by
  unfold PaginationRequest.Validate
  by_cases h1 : p.Page ≤ 0 <;> by_cases h2 : p.PerPage ≤ 0 <;>
  by_cases h3 : p.Order = "" <;>
  by_cases h4 : p.Order = "asc" <;> by_cases h5 : p.Order = "desc" <;>
  simp [h1, h2, h3, h4, h5, apply_ite PaginationRequest.Page,
    apply_ite PaginationRequest.PerPage, apply_ite PaginationRequest.Search,
    apply_ite PaginationRequest.SortField, apply_ite PaginationRequest.Order,
    apply_ite PaginationRequest.IsDisabled] <;>
  (cases p <;> simp_all)

lemma Validate_Page (p : PaginationRequest) :
    p.Validate.Page = if p.Page ≤ 0 then 1 else p.Page := by
  rw [Validate_eq]

lemma Validate_PerPage (p : PaginationRequest) :
    p.Validate.PerPage = if p.PerPage ≤ 0 then 10 else p.PerPage := by
  rw [Validate_eq]

lemma Validate_Order (p : PaginationRequest) :
    p.Validate.Order =
      if p.Order = "asc" ∨ p.Order = "desc" then p.Order else "asc" := by
  rw [Validate_eq]

lemma Validate_Search (p : PaginationRequest) : p.Validate.Search = p.Search := by
  rw [Validate_eq]

lemma Validate_SortField (p : PaginationRequest) :
    p.Validate.SortField = p.SortField := by
  rw [Validate_eq]

lemma Validate_IsDisabled (p : PaginationRequest) :
    p.Validate.IsDisabled = p.IsDisabled := by
  rw [Validate_eq]

/-- Page field of `BindPagination`. -/
lemma BindPagination_Page (ctx : QueryContext) :
    (BindPagination ctx).Page =
      (match goAtoi ctx.page with
       | some pg => if 0 < pg then pg else 1
       | none => 1) := by
  rcases hp : goAtoi ctx.page with _ | pg <;>
  rcases hpp : goAtoi ctx.per_page with _ | pp <;>
  by_cases h1 : ctx.page = "" <;> by_cases h2 : ctx.per_page = "" <;>
  simp [BindPagination, Validate_Page, h1, h2, hp, hpp, goAtoi_empty,
    apply_ite PaginationRequest.Page] <;>
  split_ifs <;> simp_all [goAtoi_empty]

/-- PerPage field of `BindPagination`. -/
lemma BindPagination_PerPage (ctx : QueryContext) :
    (BindPagination ctx).PerPage =
      (match goAtoi ctx.per_page with
       | some v => if 0 < v ∧ v ≤ 100 then v else 10
       | none => 10) := by
  rcases hp : goAtoi ctx.page with _ | pg <;>
  rcases hpp : goAtoi ctx.per_page with _ | pp <;>
  by_cases h1 : ctx.page = "" <;> by_cases h2 : ctx.per_page = "" <;>
  simp [BindPagination, Validate_PerPage, h1, h2, hp, hpp, goAtoi_empty,
    apply_ite PaginationRequest.PerPage] <;>
  split_ifs <;> simp_all [goAtoi_empty]

/-- Search field of `BindPagination`. -/
lemma BindPagination_Search (ctx : QueryContext) :
    (BindPagination ctx).Search = ctx.search := by
  rcases hp : goAtoi ctx.page with _ | pg <;>
  rcases hpp : goAtoi ctx.per_page with _ | pp <;>
  by_cases h1 : ctx.page = "" <;> by_cases h2 : ctx.per_page = "" <;>
  simp [BindPagination, Validate_Search, h1, h2, hp, hpp,
    apply_ite PaginationRequest.Search]

/-- Sort field of `BindPagination`. -/
lemma BindPagination_SortField (ctx : QueryContext) :
    (BindPagination ctx).SortField = ctx.sort := by
  rcases hp : goAtoi ctx.page with _ | pg <;>
  rcases hpp : goAtoi ctx.per_page with _ | pp <;>
  by_cases h1 : ctx.page = "" <;> by_cases h2 : ctx.per_page = "" <;>
  simp [BindPagination, Validate_SortField, h1, h2, hp, hpp,
    apply_ite PaginationRequest.SortField]

/-- Order field of `BindPagination`. -/
lemma BindPagination_Order (ctx : QueryContext) :
    (BindPagination ctx).Order =
      (if ctx.order = "desc" ∨ ctx.order = "asc" then ctx.order else "asc") := by
  rcases hp : goAtoi ctx.page with _ | pg <;>
  rcases hpp : goAtoi ctx.per_page with _ | pp <;>
  by_cases h1 : ctx.page = "" <;> by_cases h2 : ctx.per_page = "" <;>
  by_cases ho1 : ctx.order = "desc" <;> by_cases ho2 : ctx.order = "asc" <;>
  simp [BindPagination, Validate_Order, h1, h2, hp, hpp, ho1, ho2,
    apply_ite PaginationRequest.Order]

/-- IsDisabled field of `BindPagination`. -/
lemma BindPagination_IsDisabled (ctx : QueryContext) :
    (BindPagination ctx).IsDisabled =
      (if ctx.is_disabled ≠ "" then parseBoolish ctx.is_disabled else false) := by
  rcases hp : goAtoi ctx.page with _ | pg <;>
  rcases hpp : goAtoi ctx.per_page with _ | pp <;>
  by_cases h1 : ctx.page = "" <;> by_cases h2 : ctx.per_page = "" <;>
  by_cases hd : ctx.is_disabled = "" <;>
  simp [BindPagination, Validate_IsDisabled, h1, h2, hp, hpp, hd,
    apply_ite PaginationRequest.IsDisabled]

/-- For positive divisors, `ceilDiv a b` is the ceiling of `a / b`:
the least integer `c` with `a ≤ b * c`. -/
lemma ceilDiv_bounds (a b : Int) (hb : 0 < b) :
    b * (ceilDiv a b - 1) < a ∧ a ≤ b * ceilDiv a b := by
  unfold ceilDiv
  have h1 : b * ((-a) / b) + (-a) % b = -a := Int.ediv_add_emod (-a) b
  have h2 : 0 ≤ (-a) % b := Int.emod_nonneg _ (by omega)
  have h3 : (-a) % b < b := Int.emod_lt_of_pos _ hb
  constructor
  · have hr : b * (-((-a) / b) - 1) = -(b * ((-a) / b)) - b := by ring
    linarith
  · have hr : b * (-((-a) / b)) = -(b * ((-a) / b)) := by ring
    linarith

lemma CalculatePagination_not_disabled (p : PaginationRequest) (total : Int)
    (h : p.IsDisabled = false) :
    CalculatePagination p total =
      { Page := p.Page, PerPage := p.PerPage,
        MaxPage := if ceilDiv total p.PerPage = 0 then 1
                   else ceilDiv total p.PerPage,
        Total := total, IsDisabled := false } := by
  simp [CalculatePagination, h]

lemma secureValidate_eq_filter (allowed : String → Bool) (l : List String) :
    SecureUserFilterValidate allowed l =
      l.filter (fun s => allowed s && isValidInclude s) := by
  induction l with
  | nil => rfl
  | cons a t ih =>
    by_cases h1 : allowed a <;> by_cases h2 : isValidInclude a <;>
    simp [SecureUserFilterValidate, List.filter_cons, h1, h2, ih]

lemma allowListValidate_eq_filter (allowed : String → Bool) (l : List String) :
    allowListValidate allowed l = l.filter allowed := by
  induction l with
  | nil => rfl
  | cons a t ih =>
    by_cases h1 : allowed a <;> simp [allowListValidate, List.filter_cons, h1, ih]

/-- Every name the Province allow-list maps to true also passes the regex,
so adding the regex conjunct does not change the filter there. -/
lemma province_filter_valid (l : List String) :
    l.filter ProvinceFilterAllowedIncludes =
      l.filter (fun s => ProvinceFilterAllowedIncludes s && isValidInclude s) := by
  apply List.filter_congr
  intro x _
  by_cases hx : x = "Athletes"
  · subst hx; decide
  · simp [ProvinceFilterAllowedIncludes, hx]

/-- Every name the Athlete allow-list maps to true also passes the regex. -/
lemma athlete_filter_valid (l : List String) :
    l.filter AthleteFilterAllowedIncludes =
      l.filter (fun s => AthleteFilterAllowedIncludes s && isValidInclude s) := by
  apply List.filter_congr
  intro x _
  by_cases h1 : x = "Province"
  · subst h1; decide
  by_cases h2 : x = "Sport"
  · subst h2; decide
  by_cases h3 : x = "PlayersEvents"
  · subst h3; decide
  simp [AthleteFilterAllowedIncludes, h1, h2, h3]

end GoPagination

namespace GoPagination

/-- Claim C1: for every filter with a given allow-list map and requested
Includes list, `Validate()` replaces Includes with exactly the requested
names whose map value is true and which pass `isValidInclude`, preserving
request order and producing no error; in particular, with allow-list
`{Province:true, Sport:true}` and requested `[Province, Secret]` the result
is `[Province]`. Stated for the README's `SecureUserFilter.Validate` with an
arbitrary allow-list, and for the example filters `ProvinceFilter` and
`AthleteFilter` with their concrete allow-lists (whose `Validate` omits the
regex check, which is redundant for their allow-lists). -/
theorem C1_include_validation :
    (∀ (allowedIncludes : String → Bool) (includes : List String),
        SecureUserFilterValidate allowedIncludes includes =
          includes.filter (fun s => allowedIncludes s && isValidInclude s)) ∧
    (∀ includes : List String,
        ProvinceFilterValidate includes =
          includes.filter (fun s => ProvinceFilterAllowedIncludes s && isValidInclude s)) ∧
    (∀ includes : List String,
        AthleteFilterValidate includes =
          includes.filter (fun s => AthleteFilterAllowedIncludes s && isValidInclude s)) ∧
    (∀ (allowedIncludes : String → Bool) (includes : List String),
        List.Sublist (SecureUserFilterValidate allowedIncludes includes) includes) ∧
    SecureUserFilterValidate (fun s => s = "Province" || s = "Sport")
        ["Province", "Secret"] = ["Province"] ∧
    allowListValidate (fun s => s = "Province" || s = "Sport")
        ["Province", "Secret"] = ["Province"] := by
  refine ⟨secureValidate_eq_filter, ?_, ?_, ?_, by decide, by decide⟩
  · intro l
    rw [ProvinceFilterValidate, allowListValidate_eq_filter]
    exact province_filter_valid l
  · intro l
    rw [AthleteFilterValidate, allowListValidate_eq_filter]
    exact athlete_filter_valid l
  · intro allowed l
    rw [secureValidate_eq_filter]
    exact List.filter_sublist l

/-- Claim C2: `BindPagination` never yields `PerPage` above 100: the bound
value is the parsed `per_page` when it lies in `(0, 100]` and the default 10
otherwise (so inputs over 100 and inputs at or below 0 both end at 10,
which is at most 100), and it is always between 1 and 100. -/
theorem C2_bind_perPage_cap (ctx : QueryContext) :
    (BindPagination ctx).PerPage ≤ 100 ∧ 1 ≤ (BindPagination ctx).PerPage ∧
    (BindPagination ctx).PerPage =
      (match goAtoi ctx.per_page with
       | some v => if 0 < v ∧ v ≤ 100 then v else 10
       | none => 10) ∧
    (BindPagination { page := "", per_page := "150", search := "", sort := "", order := "", is_disabled := "" }).PerPage = 10 ∧
    (BindPagination { page := "", per_page := "0", search := "", sort := "", order := "", is_disabled := "" }).PerPage = 10 ∧
    (BindPagination { page := "", per_page := "100", search := "", sort := "", order := "", is_disabled := "" }).PerPage = 100 := by
  refine ⟨?_, ?_, BindPagination_PerPage ctx, by decide, by decide, by decide⟩
  · rw [BindPagination_PerPage]
    rcases h : goAtoi ctx.per_page with _ | v <;> simp [h] <;> split_ifs <;> omega
  · rw [BindPagination_PerPage]
    rcases h : goAtoi ctx.per_page with _ | v <;> simp [h] <;> split_ifs <;> omega

/-- Claim C3: for total ≥ 0, perPage ≥ 1 and pagination not disabled,
`CalculatePagination` returns `MaxPage = max 1 (ceil (total / perPage))`;
the two middle conjuncts pin `ceilDiv` as the true ceiling, and the last
two give the claim's instances: total 25 at perPage 10 yields 3, total 0
yields 1. -/
theorem C3_maxPage (p : PaginationRequest) (total : Int)
    (hdis : p.IsDisabled = false) (hpp : 1 ≤ p.PerPage) (htot : 0 ≤ total) :
    (CalculatePagination p total).MaxPage = max 1 (ceilDiv total p.PerPage) ∧
    p.PerPage * (ceilDiv total p.PerPage - 1) < total ∧
    total ≤ p.PerPage * ceilDiv total p.PerPage ∧
    (CalculatePagination (mkRequest 1 10 false) 25).MaxPage = 3 ∧
    (CalculatePagination (mkRequest 1 10 false) 0).MaxPage = 1 := by
  have hb : 0 < p.PerPage := by omega
  obtain ⟨hlow, hhigh⟩ := ceilDiv_bounds total p.PerPage hb
  have hnn : 0 ≤ ceilDiv total p.PerPage := by nlinarith
  refine ⟨?_, hlow, hhigh, by decide, by decide⟩
  rw [CalculatePagination_not_disabled p total hdis]
  by_cases h0 : ceilDiv total p.PerPage = 0 <;> simp [h0] <;> omega

/-- Witness for C3 at `p = mkRequest 2 10 false`, `total = 25`. -/
theorem C3_maxPage_witness :
    (CalculatePagination (mkRequest 2 10 false) 25).MaxPage =
      max 1 (ceilDiv 25 (mkRequest 2 10 false).PerPage) ∧
    (mkRequest 2 10 false).PerPage *
        (ceilDiv 25 (mkRequest 2 10 false).PerPage - 1) < 25 ∧
    25 ≤ (mkRequest 2 10 false).PerPage *
        ceilDiv 25 (mkRequest 2 10 false).PerPage ∧
    (CalculatePagination (mkRequest 1 10 false) 25).MaxPage = 3 ∧
    (CalculatePagination (mkRequest 1 10 false) 0).MaxPage = 1 :=
  C3_maxPage (mkRequest 2 10 false) 25 rfl (by decide) (by decide)

/-- Claim C4: with `IsDisabled` true, `CalculatePagination` returns exactly
`{Page:1, PerPage:total, MaxPage:1, Total:total, IsDisabled:true}` for every
request (so the request's Page and PerPage are ignored), and `MaxPage = 1`
whenever pagination is disabled or the total is 0 (the total-0 case under
the normalization invariant perPage ≥ 1). -/
theorem C4_disabled (p : PaginationRequest) (total : Int) :
    (p.IsDisabled = true →
      CalculatePagination p total =
        { Page := 1, PerPage := total, MaxPage := 1, Total := total, IsDisabled := true }) ∧
    ((p.IsDisabled = true ∨ total = 0) → 1 ≤ p.PerPage →
      (CalculatePagination p total).MaxPage = 1) := by
  constructor
  · intro h; simp [CalculatePagination, h]
  · rintro (h | h) hpp
    · simp [CalculatePagination, h]
    · subst h
      by_cases hdd : p.IsDisabled
      · simp [CalculatePagination, hdd]
      · have hc : ceilDiv 0 p.PerPage = 0 := by unfold ceilDiv; simp
        simp [CalculatePagination, hdd, hc]

/-- Witness for C4 at `p = mkRequest 3 7 true`, `total = 42`. -/
theorem C4_disabled_witness :
    CalculatePagination (mkRequest 3 7 true) 42 =
      { Page := 1, PerPage := 42, MaxPage := 1, Total := 42, IsDisabled := true } ∧
    (CalculatePagination (mkRequest 3 7 true) 42).MaxPage = 1 := by
  obtain ⟨h1, h2⟩ := C4_disabled (mkRequest 3 7 true) 42
  exact ⟨h1 rfl, h2 (Or.inl rfl) (by decide)⟩

/-- Claim C5: `Validate()` yields Page ≥ 1 (1 when Page ≤ 0), PerPage ≥ 1
(10 when PerPage ≤ 0), Order in `{asc, desc}` ("asc" for any other value
including the empty string), and leaves in-range values and the remaining
fields unchanged. -/
theorem C5_validate (p : PaginationRequest) :
    (p.Validate.Page = if p.Page ≤ 0 then 1 else p.Page) ∧
    (p.Validate.PerPage = if p.PerPage ≤ 0 then 10 else p.PerPage) ∧
    (p.Validate.Order = if p.Order = "asc" ∨ p.Order = "desc" then p.Order else "asc") ∧
    1 ≤ p.Validate.Page ∧ 1 ≤ p.Validate.PerPage ∧
    (p.Validate.Order = "asc" ∨ p.Validate.Order = "desc") ∧
    p.Validate.Search = p.Search ∧ p.Validate.SortField = p.SortField ∧
    p.Validate.IsDisabled = p.IsDisabled := by
  refine ⟨Validate_Page p, Validate_PerPage p, Validate_Order p, ?_, ?_, ?_,
    Validate_Search p, Validate_SortField p, Validate_IsDisabled p⟩
  · rw [Validate_Page]; split_ifs <;> omega
  · rw [Validate_PerPage]; split_ifs <;> omega
  · rw [Validate_Order]; split_ifs with h
    · exact h
    · exact Or.inl rfl

/-- Claim C6: with a non-empty field list and non-empty term, the search
builder adds one clause whose text depends only on the fields and the
dialect-selected operator (ILIKE exactly on PostgreSQL, LIKE on MySQL,
SQLite and SQLServer) and whose bound arguments are the term wrapped as
`%term%`, one per field — the term never enters the clause text. -/
theorem C6_search_operator (searchFields : List String) (dialect : DatabaseDialect)
    (query : Query) (searchTerm : String)
    (hfields : searchFields ≠ []) (hterm : searchTerm ≠ "") :
    CreateSearchableFilter searchFields dialect query searchTerm =
      query.Where (searchClauseText searchFields (searchOperator dialect))
        (searchFields.map (fun _ => "%" ++ searchTerm ++ "%")) ∧
    searchOperator DatabaseDialect.PostgreSQL = "ILIKE" ∧
    searchOperator DatabaseDialect.MySQL = "LIKE" ∧
    searchOperator DatabaseDialect.SQLite = "LIKE" ∧
    searchOperator DatabaseDialect.SQLServer = "LIKE" := by
  refine ⟨?_, rfl, rfl, rfl, rfl⟩
  match searchFields with
  | [] => exact absurd rfl hfields
  | [f] => simp [CreateSearchableFilter, searchClauseText, searchOperator, hterm]
  | f1 :: f2 :: rest =>
    simp [CreateSearchableFilter, searchClauseText, searchOperator, hterm]

/-- Witness for C6 at fields `["name", "code"]`, dialect PostgreSQL, empty
query, term `"jo"`. -/
theorem C6_search_operator_witness :
    CreateSearchableFilter ["name", "code"] DatabaseDialect.PostgreSQL
        { wheres := [] } "jo" =
      Query.Where { wheres := [] }
        (searchClauseText ["name", "code"] (searchOperator DatabaseDialect.PostgreSQL))
        (["name", "code"].map (fun _ => "%" ++ "jo" ++ "%")) ∧
    searchOperator DatabaseDialect.PostgreSQL = "ILIKE" ∧
    searchOperator DatabaseDialect.MySQL = "LIKE" ∧
    searchOperator DatabaseDialect.SQLite = "LIKE" ∧
    searchOperator DatabaseDialect.SQLServer = "LIKE" :=
  C6_search_operator ["name", "code"] DatabaseDialect.PostgreSQL
    { wheres := [] } "jo" (by decide) (by decide)

/-- Claim C7, counterexample: the claim says binding problems never produce
an error response, but when the external `ShouldBindQuery` call fails on a
malformed custom filter parameter, `PaginatedAPIResponseWithQueryLayer`
(helpers.go lines 228-231) rejects the request with a code-400 "error"
envelope. -/
theorem C7_counterexample :
    bindFailureResponse.Code = 400 ∧ bindFailureResponse.Status = "error" ∧
    bindFailureResponse =
      NewPaginatedResponse 400 ("Invalid query parameters: " ++ "invalid syntax")
        none zeroPaginationResponse := by
  refine ⟨rfl, rfl, rfl⟩

/-- Claim C7, amended: the core pagination fields bound by `BindPagination`
(page, per_page, order, is_disabled) always fail closed to safe in-range
values; an invalid sort name is silently dropped — the executor's sort
resolution falls back to the strategy's default sort and always yields one
of the two well-formed order clauses, never an error (instantiated at the
repo test's injection string); disallowed includes are silently dropped
(the sanitized list is a sublist, no error is produced); but a
`ShouldBindQuery` failure on the custom filter's own typed parameters is
rejected rather than degraded: `PaginateWithCustomFilter` returns the
binding error with empty results and zero pagination, and
`PaginatedAPIResponseWithQueryLayer` answers with a code-400 envelope. -/
theorem C7_amended :
    (∀ ctx : QueryContext,
        1 ≤ (BindPagination ctx).Page ∧ 1 ≤ (BindPagination ctx).PerPage ∧
        (BindPagination ctx).PerPage ≤ 100 ∧
        ((BindPagination ctx).Order = "asc" ∨ (BindPagination ctx).Order = "desc") ∧
        ((BindPagination ctx).IsDisabled = true ∨ (BindPagination ctx).IsDisabled = false)) ∧
    (∀ (sortField order defaultSort : String), isValidSortField sortField = false →
        resolveSort sortField order defaultSort = defaultSort) ∧
    (∀ (sortField order defaultSort : String),
        resolveSort sortField order defaultSort = defaultSort ∨
        resolveSort sortField order defaultSort = sortField ++ " " ++ order) ∧
    isValidSortField "name" = true ∧
    isValidSortField "name; DROP TABLE users;" = false ∧
    resolveSort "name; DROP TABLE users;" "asc" "id asc" = "id asc" ∧
    (∀ (allowedIncludes : String → Bool) (includes : List String),
        List.Sublist (SecureUserFilterValidate allowedIncludes includes) includes) ∧
    (∀ (e : String) (countResult : Except String Int)
        (fetchResult : Except String (List Unit)) (pagination : PaginationRequest),
        PaginateWithCustomFilter (Except.error e) countResult fetchResult pagination =
          ([], zeroPaginationResponse, some e)) ∧
    (∀ (e : String) (validate : List String → List String) (includes : List String)
        (queryFunc : List String → Except String (List Unit × Int))
        (pagination : PaginationRequest) (message : String),
        PaginatedAPIResponseWithQueryLayer (Except.error e) validate includes
            queryFunc pagination message =
          NewPaginatedResponse 400 ("Invalid query parameters: " ++ e) none
            zeroPaginationResponse) := by
  refine ⟨fun ctx => ⟨?_, ?_, ?_, ?_, ?_⟩, ?_, ?_, by decide, by decide, by decide,
    ?_, fun e c f p => rfl, fun e v i q p m => rfl⟩
  · rw [BindPagination_Page]
    rcases h : goAtoi ctx.page with _ | v <;> simp [h] <;> split_ifs <;> omega
  · rw [BindPagination_PerPage]
    rcases h : goAtoi ctx.per_page with _ | v <;> simp [h] <;> split_ifs <;> omega
  · rw [BindPagination_PerPage]
    rcases h : goAtoi ctx.per_page with _ | v <;> simp [h] <;> split_ifs <;> omega
  · rw [BindPagination_Order]
    split_ifs with h
    · tauto
    · exact Or.inl rfl
  · rcases h : (BindPagination ctx).IsDisabled with _ | _
    · exact Or.inr rfl
    · exact Or.inl rfl
  · intro sortField order defaultSort h
    simp [resolveSort, h]
  · intro sortField order defaultSort
    by_cases h : isValidSortField sortField
    · exact Or.inr (by simp [resolveSort, h])
    · exact Or.inl (by simp [resolveSort, h])
  · intro allowed l
    rw [secureValidate_eq_filter]
    exact List.filter_sublist l

/-- Witness for the amended C7 at the repo test's injection string: the
hypothesis `isValidSortField "name; DROP TABLE users;" = false` is
discharged concretely and the sort falls back to the default. -/
theorem C7_amended_witness :
    resolveSort "name; DROP TABLE users;" "asc" "id asc" = "id asc" :=
  C7_amended.2.1 "name; DROP TABLE users;" "asc" "id asc" (by decide)

/-- Claim C8: a store error at the count step or the fetch step aborts the
whole paginated operation: `PaginateWithCustomFilter` returns the error with
empty results and zero pagination, and `PaginatedAPIResponseWithCustomFilter`
returns a code-500 "error" envelope with nil data and zero-valued pagination
metadata. -/
theorem C8_store_error_aborts (pagination : PaginationRequest) (message e : String) :
    (∀ fetchResult : Except String (List Unit),
        PaginateWithCustomFilter (Except.ok ()) (Except.error e) fetchResult pagination =
          ([], zeroPaginationResponse, some e)) ∧
    (∀ total : Int,
        PaginateWithCustomFilter (α := Unit) (Except.ok ()) (Except.ok total)
            (Except.error e) pagination = ([], zeroPaginationResponse, some e)) ∧
    (∀ fetchResult : Except String (List Unit),
        PaginatedAPIResponseWithCustomFilter (Except.ok ()) (Except.error e)
            fetchResult pagination message =
          NewPaginatedResponse 500 ("Internal Server Error: " ++ e) none
            zeroPaginationResponse) ∧
    (∀ total : Int,
        PaginatedAPIResponseWithCustomFilter (α := Unit) (Except.ok ())
            (Except.ok total) (Except.error e) pagination message =
          NewPaginatedResponse 500 ("Internal Server Error: " ++ e) none
            zeroPaginationResponse) ∧
    (NewPaginatedResponse (α := Unit) 500 ("Internal Server Error: " ++ e) none
        zeroPaginationResponse).Status = "error" ∧
    (NewPaginatedResponse (α := Unit) 500 ("Internal Server Error: " ++ e) none
        zeroPaginationResponse).Data = none ∧
    (NewPaginatedResponse (α := Unit) 500 ("Internal Server Error: " ++ e) none
        zeroPaginationResponse).Pagination = zeroPaginationResponse := by
  exact ⟨fun fr => rfl, fun t => rfl, fun fr => rfl, fun t => rfl, rfl, rfl, rfl⟩

/-- Claim C9: applying the search clause with an empty field list or an
empty term returns the query unchanged. -/
theorem C9_empty_search_noop (searchFields : List String)
    (dialect : DatabaseDialect) (query : Query) (searchTerm : String)
    (h : searchFields = [] ∨ searchTerm = "") :
    CreateSearchableFilter searchFields dialect query searchTerm = query := by
  have hc : searchFields.length = 0 ∨ searchTerm = "" := by
    rcases h with h | h
    · left; simp [h]
    · right; exact h
  simp only [CreateSearchableFilter]
  rw [if_pos hc]

/-- Witness for C9 at fields `["name"]`, dialect MySQL, empty query, empty
term. -/
theorem C9_empty_search_noop_witness :
    CreateSearchableFilter ["name"] DatabaseDialect.MySQL { wheres := [] } "" =
      { wheres := [] } :=
  C9_empty_search_noop ["name"] DatabaseDialect.MySQL { wheres := [] } ""
    (Or.inr rfl)

/-- Claim C10: with pagination enabled, `CalculatePagination` copies the
request's Page verbatim, so the returned Page can exceed MaxPage: at Page 5
with total 10 and perPage 10 the response has Page 5 and MaxPage 1. -/
theorem C10_page_copied (p : PaginationRequest) (total : Int)
    (h : p.IsDisabled = false) :
    (CalculatePagination p total).Page = p.Page ∧
    (CalculatePagination (mkRequest 5 10 false) 10).Page = 5 ∧
    (CalculatePagination (mkRequest 5 10 false) 10).MaxPage = 1 ∧
    (CalculatePagination (mkRequest 5 10 false) 10).MaxPage
      < (CalculatePagination (mkRequest 5 10 false) 10).Page := by
  refine ⟨?_, by decide, by decide, by decide⟩
  simp [CalculatePagination, h]

/-- Witness for C10 at `p = mkRequest 5 10 false`, `total = 10`. -/
theorem C10_page_copied_witness :
    (CalculatePagination (mkRequest 5 10 false) 10).Page = (mkRequest 5 10 false).Page ∧
    (CalculatePagination (mkRequest 5 10 false) 10).Page = 5 ∧
    (CalculatePagination (mkRequest 5 10 false) 10).MaxPage = 1 ∧
    (CalculatePagination (mkRequest 5 10 false) 10).MaxPage
      < (CalculatePagination (mkRequest 5 10 false) 10).Page :=
  C10_page_copied (mkRequest 5 10 false) 10 rfl

end GoPagination
